import Mathlib

/-!
Verification of the DPX loader plug-in (plug-ins/common/file-dpx.c).

The C file registers a GIMP load procedure whose worker is the static
function load_image.  The executable part of load_image opens the file,
reads the 4 magic bytes with fread, and then returns the local variable
image, which is initialised to NULL and never assigned: the whole
decoding body (fseek to 772, dimension reads, validation, allocation and
the scanline loop) sits inside a C block comment at lines 210-279 of the
source.  We embed both:

  * Dpx.load_image      - the code as compiled (the live semantics);
  * Dpx.load_image_full - the disabled body at lines 210-279, read
    literally from the source text, giving the decoder the comments
    describe.

Files are modelled as lists of byte values; the FILE* handle obtained
from g_fopen is FileInput.readable with the file contents, or
FileInput.unreadable when g_fopen fails.  Errors carry the identity of
the g_set_error call site; constructors that only the specification
names (badMagic, dimensionOverflow) are included so that statements
about them can be written, but no code path produces them.
-/

set_option maxRecDepth 100000

deriving instance DecidableEq for Except

namespace Dpx

/-- Maximum image dimension, GIMP_MAX_IMAGE_SIZE from libgimpbase/gimplimits.h. -/
def GIMP_MAX_IMAGE_SIZE : Nat := 524288

/-- Error identities.  couldNotOpen, failedToReadHeader are the two
g_set_error sites in the compiled code; failedToReadDimensions,
dimensionsTooLarge, prematureEOF, outOfMemory are the g_set_error sites
inside the commented-out body; badMagic and dimensionOverflow appear in
no code path and exist only so the specification's error taxonomy can be
stated. -/
inductive DecodeError where
  | couldNotOpen
  | failedToReadHeader
  | badMagic
  | seekError
  | failedToReadDimensions
  | dimensionsTooLarge
  | dimensionOverflow
  | prematureEOF
  | outOfMemory
deriving DecidableEq

/-- The decoded raster: width, height, and one list of native 16-bit
samples per scanline (R,G,B,A interleaved, so a row holds width*4
samples). -/
structure Raster where
  width : Nat
  height : Nat
  rows : List (List Nat)
deriving DecidableEq

/-- The g_fopen outcome: a readable file with its byte contents, or a
file that could not be opened. -/
inductive FileInput where
  | unreadable
  | readable (bytes : List Nat)
deriving DecidableEq

/-- Observable outcome of load_image: the returned GimpImage (none =
NULL), the GError out-parameter (none = left unset), the number of bytes
consumed from the stream, and the list of row indices for which a
scanline fread was performed, in order. -/
structure LoadResult where
  image : Option Raster
  err : Option DecodeError
  consumed : Nat
  rowsRead : List Nat
deriving DecidableEq

/-- The compiled load_image (file-dpx.c lines 174-281).  If g_fopen
fails it sets a G_FILE_ERROR and returns NULL.  If the 4-byte magic
fread fails (fewer than 4 bytes in the file; fread consumes what is
available) it sets the Failed-to-read-Dpx-header error and returns NULL.
Otherwise nothing further executes - lines 210-279 are commented out -
and the function returns image, still NULL, with the error out-parameter
untouched.  No magic comparison, dimension read, validation, allocation
or row read is performed. -/
def load_image : FileInput → LoadResult
  | .unreadable => ⟨none, some .couldNotOpen, 0, []⟩
  | .readable bytes =>
    if bytes.length < 4 then ⟨none, some .failedToReadHeader, bytes.length, []⟩
    else ⟨none, none, 4, []⟩

/-- GimpPDBStatusType values used by dpx_load. -/
inductive PdbStatus where
  | success
  | executionError
deriving DecidableEq

/-- Return value of the registered procedure: status, the GError handed
to gimp_procedure_new_return_values, and the image value set on
success. -/
structure PdbReturn where
  status : PdbStatus
  err : Option DecodeError
  image : Option Raster
deriving DecidableEq

/-- The procedure callback dpx_load (file-dpx.c lines 143-172): calls
load_image with error initialised to NULL; when the image is NULL it
returns GIMP_PDB_EXECUTION_ERROR carrying whatever error load_image
stored, otherwise GIMP_PDB_SUCCESS with the image. -/
def dpx_load (f : FileInput) : PdbReturn :=
  let r := load_image f
  match r.image with
  | none => ⟨.executionError, r.err, none⟩
  | some img => ⟨.success, none, some img⟩

/-- Byte of a file at an index (0 beyond the end; reads that would fall
off the end are guarded by length checks before use). -/
def byteAt (bytes : List Nat) (i : Nat) : Nat := bytes.getD i 0

/-- A guint32 read with fread and converted with GUINT32_FROM_BE: the
first four bytes of a list, big-endian. -/
def be32ofBytes : List Nat → Nat
  | b0 :: b1 :: b2 :: b3 :: _ => ((b0 * 256 + b1) * 256 + b2) * 256 + b3
  | _ => 0

/-- Big-endian 32-bit field of a file at a byte offset. -/
def be32at (bytes : List Nat) (off : Nat) : Nat := be32ofBytes (bytes.drop off)

/-- One scanline as read into the guint16 array and passed through
GUINT16_FROM_BE per sample: consecutive byte pairs, big-endian.  The
native value of sample j is b0*256+b1 whichever the host endianness,
since FROM_BE byte-swaps exactly on little-endian hosts. -/
def bytesToSamples : List Nat → List Nat
  | b0 :: b1 :: rest => (b0 * 256 + b1) :: bytesToSamples rest
  | _ => []

/-- Inverse direction, used by the specification's round-trip property:
native 16-bit samples laid out as big-endian byte pairs. -/
def samplesToBytes : List Nat → List Nat
  | s :: rest => s / 256 :: s % 256 :: samplesToBytes rest
  | [] => []

/-- The scanline loop of the disabled body (source lines 259-274): for
each remaining row, fread row_size bytes (failing with the
Premature-end-of-Dpx-pixel-data error if short), convert every sample
from big-endian, and append the row to the buffer in order. -/
def decodeRows (row_size : Nat) : Nat → List Nat → Except DecodeError (List (List Nat))
  | 0, _ => .ok []
  | h + 1, bytes =>
    if bytes.length < row_size then .error .prematureEOF
    else
      match decodeRows row_size h (bytes.drop row_size) with
      | .error e => .error e
      | .ok rows => .ok (bytesToSamples (bytes.take row_size) :: rows)

/-- The load_image the source text describes with its lines 210-279
un-commented, appended to the live prefix: read the magic (4 bytes),
fseek to 772 (always succeeds on a regular file), read width and height
as big-endian guint32 (one shared error if either read is short), check
width and height against GIMP_MAX_IMAGE_SIZE and row_size = width *
sizeof(guint16) * 4 against overflow of the 64-bit gsize, allocate the
row buffer with g_try_malloc (which returns NULL for size 0, the
not-enough-memory path; assumed to succeed for positive sizes), then run
the scanline loop from the stream position 780.  Note that even this
body never compares the magic bytes against SDPX. -/
def load_image_full (bytes : List Nat) : Except DecodeError Raster :=
  if bytes.length < 4 then .error .failedToReadHeader
  else if bytes.length < 780 then .error .failedToReadDimensions
  else
    let width := be32at bytes 772
    let height := be32at bytes 776
    if GIMP_MAX_IMAGE_SIZE < width ∨ GIMP_MAX_IMAGE_SIZE < height ∨ 2 ^ 64 ≤ width * 8 then
      .error .dimensionsTooLarge
    else
      let row_size := width * 8
      if row_size = 0 then .error .outOfMemory
      else
        match decodeRows row_size height (bytes.drop 780) with
        | .error e => .error e
        | .ok rows => .ok ⟨width, height, rows⟩

/-- A big-endian u32 as four bytes. -/
def be32bytes (n : Nat) : List Nat :=
  [n / 16777216 % 256, n / 65536 % 256, n / 256 % 256, n % 256]

/-- The 772 bytes preceding the width field in an encoded file: the
SDPX magic followed by 768 padding bytes. -/
def header772 : List Nat := [83, 68, 80, 88] ++ List.replicate 768 0

/-- Modelled from the spec: the repository contains no DPX encoder
(writing DPX is a declared non-goal), so the encoding half of the
byte-order round-trip property is built from the specification's file
layout table: SDPX magic at 0, big-endian width at 772 and height at
776, then height rows of width*4 big-endian u16 samples. -/
def encodeDpx (r : Raster) : List Nat :=
  header772 ++ (be32bytes r.width ++ (be32bytes r.height ++ (r.rows.map samplesToBytes).flatten))

/-- Well-formed file for claim C1: SDPX magic, dimensions w and h at
offsets 772/776 with 1 <= w,h <= GIMP_MAX_IMAGE_SIZE, and at least h
complete rows of w*4*2 bytes of pixel data after offset 780. -/
def ValidDpxFile (w h : Nat) (bytes : List Nat) : Prop :=
  bytes.take 4 = [83, 68, 80, 88] ∧
  be32at bytes 772 = w ∧
  be32at bytes 776 = h ∧
  1 ≤ w ∧ w ≤ GIMP_MAX_IMAGE_SIZE ∧
  1 ≤ h ∧ h ≤ GIMP_MAX_IMAGE_SIZE ∧
  780 + h * (w * 8) ≤ bytes.length

instance (w h : Nat) (bytes : List Nat) : Decidable (ValidDpxFile w h bytes) := by
  unfold ValidDpxFile
  infer_instance

/-- A raster the round-trip property quantifies over: consistent
geometry, every sample an actual 16-bit value, dimensions in range. -/
def WellFormedRaster (r : Raster) : Prop :=
  r.rows.length = r.height ∧
  (∀ row ∈ r.rows, row.length = r.width * 4) ∧
  (∀ row ∈ r.rows, ∀ s ∈ row, s < 65536) ∧
  1 ≤ r.width ∧ r.width ≤ GIMP_MAX_IMAGE_SIZE ∧
  1 ≤ r.height ∧ r.height ≤ GIMP_MAX_IMAGE_SIZE

instance (r : Raster) : Decidable (WellFormedRaster r) := by
  unfold WellFormedRaster
  infer_instance

/-- Concrete scenario 1 of the spec: SDPX magic, width 2 and height 1
at offsets 772/776, then the 16 pixel bytes of the two big-endian RGBA
pixels (0x0100,0x0200,0x0300,0xFFFF) and (0x0400,0x0500,0x0600,0xFFFF). -/
def dpxScenario1 : List Nat :=
  header772 ++ ([0, 0, 0, 2] ++ ([0, 0, 0, 1] ++
    [1, 0, 2, 0, 3, 0, 255, 255, 4, 0, 5, 0, 6, 0, 255, 255]))

/-- Concrete scenario 2 of the spec: same header, but only 12 of the 16
pixel bytes are present. -/
def dpxScenario2 : List Nat :=
  header772 ++ ([0, 0, 0, 2] ++ ([0, 0, 0, 1] ++
    [1, 0, 2, 0, 3, 0, 255, 255, 4, 0, 5, 0]))

/-- A file beginning with the little-endian magic XPDS. -/
def xpdsFile : List Nat := [88, 80, 68, 83, 0, 0, 0, 0]

/-- The crafted header of the dimension-overflow guard property: SDPX
magic, width 0xFFFFFFFF and height 1 at offsets 772/776. -/
def wideDpxFile : List Nat :=
  header772 ++ ([255, 255, 255, 255] ++ [0, 0, 0, 1])

/-- The raster used as the concrete round-trip input: one pixel,
samples 256, 512, 768, 65535. -/
def roundTripRaster : Raster := ⟨1, 1, [[256, 512, 768, 65535]]⟩

/-- Both branches of the compiled load_image leave image at its NULL
initialiser. -/
theorem load_image_no_image (f : FileInput) : (load_image f).image = none := by
  cases f with
  | unreadable => rfl
  | readable bytes => by_cases h4 : bytes.length < 4 <;> simp [load_image, h4]

theorem samplesToBytes_length (l : List Nat) : (samplesToBytes l).length = 2 * l.length := by
  induction l with
  | nil => rfl
  | cons s rest ih => simp [samplesToBytes, ih]; omega

theorem bytesToSamples_samplesToBytes (l : List Nat) :
    bytesToSamples (samplesToBytes l) = l := by
  induction l with
  | nil => rfl
  | cons s rest ih =>
    simp [samplesToBytes, bytesToSamples, ih]
    omega

theorem bytesToSamples_length (l : List Nat) : (bytesToSamples l).length = l.length / 2 := by
  induction l using bytesToSamples.induct with
  | case1 b0 b1 rest ih => simp [bytesToSamples, ih]; omega
  | case2 l h => cases l with
    | nil => rfl
    | cons a rest => cases rest with
      | nil => simp [bytesToSamples]
      | cons b r2 => exact absurd rfl (h a b r2)

/-- The scanline loop of the disabled body succeeds whenever the stream
still holds h complete rows, and then yields exactly h rows of
row_size / 2 samples each. -/
theorem decodeRows_ok (row_size : Nat) :
    ∀ (h : Nat) (bytes : List Nat), h * row_size ≤ bytes.length →
      ∃ rows, decodeRows row_size h bytes = .ok rows ∧ rows.length = h ∧
        ∀ row ∈ rows, row.length = row_size / 2 := by
  intro h
  induction h with
  | zero => exact fun bytes _ => ⟨[], rfl, rfl, by simp⟩
  | succ n ih =>
    intro bytes hlen
    rw [Nat.succ_mul] at hlen
    have hrs : row_size ≤ bytes.length := by omega
    have h1 : ¬ bytes.length < row_size := by omega
    obtain ⟨rows, hrows, hlenr, hall⟩ := ih (bytes.drop row_size) (by simp; omega)
    refine ⟨bytesToSamples (bytes.take row_size) :: rows, ?_, by simp [hlenr], ?_⟩
    · simp only [decodeRows, if_neg h1, hrows]
    · intro row hrow
      rcases List.mem_cons.mp hrow with rfl | hmem
      · rw [bytesToSamples_length, List.length_take]
        omega
      · exact hall row hmem

/-- Running the scanline loop of the disabled body over rows laid out
as big-endian byte pairs recovers exactly those rows. -/
theorem decodeRows_flatten (w : Nat) :
    ∀ (rows : List (List Nat)), (∀ row ∈ rows, row.length = w * 4) →
      decodeRows (w * 8) rows.length ((rows.map samplesToBytes).flatten) = .ok rows := by
  intro rows
  induction rows with
  | nil => intro _; rfl
  | cons r rs ih =>
    intro hlen
    have hr : r.length = w * 4 := hlen r (by simp)
    have hsb : (samplesToBytes r).length = w * 8 := by
      rw [samplesToBytes_length, hr]; omega
    simp only [List.map_cons, List.flatten_cons, List.length_cons]
    have hnl : ¬ (samplesToBytes r ++ (rs.map samplesToBytes).flatten).length < w * 8 := by
      simp [hsb]
    simp only [decodeRows, if_neg hnl, List.drop_left' hsb, List.take_left' hsb,
      ih (fun row hrow => hlen row (List.mem_cons_of_mem _ hrow)),
      bytesToSamples_samplesToBytes]

theorem be32ofBytes_be32bytes (n : Nat) (rest : List Nat) (h : n < 4294967296) :
    be32ofBytes (be32bytes n ++ rest) = n := by
  simp [be32bytes, be32ofBytes]
  omega

theorem header772_length : header772.length = 772 := by
  simp [header772]

theorem be32bytes_length (n : Nat) : (be32bytes n).length = 4 := rfl

theorem encodeDpx_drop772 (r : Raster) :
    (encodeDpx r).drop 772 =
      be32bytes r.width ++ (be32bytes r.height ++ (r.rows.map samplesToBytes).flatten) :=
  List.drop_left' header772_length

theorem encodeDpx_drop776 (r : Raster) :
    (encodeDpx r).drop 776 = be32bytes r.height ++ (r.rows.map samplesToBytes).flatten := by
  have h : ((encodeDpx r).drop 772).drop 4 = (encodeDpx r).drop 776 := by
    rw [List.drop_drop]
  rw [← h, encodeDpx_drop772, List.drop_left' (be32bytes_length r.width)]

theorem encodeDpx_drop780 (r : Raster) :
    (encodeDpx r).drop 780 = (r.rows.map samplesToBytes).flatten := by
  have h : ((encodeDpx r).drop 776).drop 4 = (encodeDpx r).drop 780 := by
    rw [List.drop_drop]
  rw [← h, encodeDpx_drop776, List.drop_left' (be32bytes_length r.height)]

theorem encodeDpx_length (r : Raster) :
    (encodeDpx r).length = 780 + ((r.rows.map samplesToBytes).flatten).length := by
  simp only [encodeDpx, List.length_append, header772_length, be32bytes_length]
  omega

/-- The decoder of the disabled body inverts the specification's
encoding on every well-formed raster. -/
theorem encodeDpx_roundTrip (r : Raster) (hwf : WellFormedRaster r) :
    load_image_full (encodeDpx r) = .ok r := by
  obtain ⟨hrh, hrow, hval, hw1, hwM, hh1, hhM⟩ := hwf
  have hwM' : r.width ≤ 524288 := hwM
  have hhM' : r.height ≤ 524288 := hhM
  have hlen : 780 ≤ (encodeDpx r).length := by rw [encodeDpx_length]; omega
  have hw : be32at (encodeDpx r) 772 = r.width := by
    rw [be32at, encodeDpx_drop772]
    exact be32ofBytes_be32bytes _ _ (by omega)
  have hh : be32at (encodeDpx r) 776 = r.height := by
    rw [be32at, encodeDpx_drop776]
    exact be32ofBytes_be32bytes _ _ (by omega)
  have hdec : decodeRows (r.width * 8) r.height ((r.rows.map samplesToBytes).flatten)
      = .ok r.rows := by
    rw [← hrh]
    exact decodeRows_flatten r.width r.rows hrow
  have hc : ¬ (GIMP_MAX_IMAGE_SIZE < r.width ∨ GIMP_MAX_IMAGE_SIZE < r.height ∨
      2 ^ 64 ≤ r.width * 8) := by
    simp only [GIMP_MAX_IMAGE_SIZE]
    omega
  simp only [load_image_full, hw, hh]
  rw [if_neg (by omega), if_neg (by omega), if_neg hc, if_neg (by omega : ¬ r.width * 8 = 0)]
  rw [encodeDpx_drop780, hdec]

/-- Claim C1: for every file with SDPX magic, dimensions w and h in
range at offsets 772/776, and at least h complete rows of w*4*2 pixel
bytes, the claim says load_image succeeds with a w-by-h 4-channel
16-bit raster.  The compiled code instead returns NULL on every such
file; the raster of the claim is exactly what the commented-out body
at lines 210-279 would produce. -/
theorem claim_C1_valid_file_live_null_intended_raster (w h : Nat) (bytes : List Nat)
    (hv : ValidDpxFile w h bytes) :
    (load_image (.readable bytes)).image = none ∧
    ∃ rows, load_image_full bytes = .ok ⟨w, h, rows⟩ ∧ rows.length = h ∧
      ∀ row ∈ rows, row.length = w * 4 := by
  obtain ⟨hmagic, hw, hh, hw1, hwM, hh1, hhM, hlen⟩ := hv
  have hwM' : w ≤ 524288 := hwM
  have hhM' : h ≤ 524288 := hhM
  refine ⟨load_image_no_image _, ?_⟩
  have hlen780 : 780 ≤ bytes.length := le_trans (Nat.le_add_right 780 _) hlen
  obtain ⟨rows, hrows, hlenr, hall⟩ :=
    decodeRows_ok (w * 8) h (bytes.drop 780) (by simp; omega)
  refine ⟨rows, ?_, hlenr, ?_⟩
  · have hc : ¬ (GIMP_MAX_IMAGE_SIZE < w ∨ GIMP_MAX_IMAGE_SIZE < h ∨ 2 ^ 64 ≤ w * 8) := by
      simp only [GIMP_MAX_IMAGE_SIZE]
      omega
    simp only [load_image_full, hw, hh]
    rw [if_neg (by omega), if_neg (by omega), if_neg hc, if_neg (by omega : ¬ w * 8 = 0)]
    rw [hrows]
  · intro row hrow
    have hr := hall row hrow
    rw [hr]
    omega

/-- Witness for claim C1 at the spec's concrete scenario 1 file. -/
theorem claim_C1_witness :
    ValidDpxFile 2 1 dpxScenario1 ∧
    ((load_image (.readable dpxScenario1)).image = none ∧
      ∃ rows, load_image_full dpxScenario1 = .ok ⟨2, 1, rows⟩ ∧ rows.length = 1 ∧
        ∀ row ∈ rows, row.length = 2 * 4) :=
  ⟨by decide, claim_C1_valid_file_live_null_intended_raster 2 1 dpxScenario1 (by decide)⟩

/-- Claim C2: for every input file, readable or not and of any
content, load_image returns NULL: the image local is initialised to
NULL and, the decoding body being commented out, never assigned before
the final return. -/
theorem claim_C2_load_image_always_null (f : FileInput) : (load_image f).image = none :=
  load_image_no_image f

/-- Counterexample for claim C3: on the file beginning with the
little-endian magic XPDS the claim demands a BadMagic failure, but the
compiled load_image compares nothing against SDPX and leaves the error
out-parameter unset. -/
theorem claim_C3_counterexample :
    xpdsFile.take 4 = [88, 80, 68, 83] ∧
    (load_image (.readable xpdsFile)).err = none ∧
    (load_image (.readable xpdsFile)).err ≠ some DecodeError.badMagic := by decide

/-- Claim C3 as amended: for any file with at least 4 readable bytes
whose first 4 bytes differ from S,D,P,X, load_image does fail in the
sense of returning NULL and consumes no header bytes beyond the 4
magic bytes, but it sets no error at all - no BadMagic check exists in
the code. -/
theorem claim_C3_amended_no_magic_check (bytes : List Nat) (h4 : 4 ≤ bytes.length)
    (_hm : bytes.take 4 ≠ [83, 68, 80, 88]) :
    load_image (.readable bytes) = ⟨none, none, 4, []⟩ := by
  simp [load_image, Nat.not_lt.mpr h4]

/-- Witness for the amended claim C3 at the XPDS file. -/
theorem claim_C3_witness :
    4 ≤ xpdsFile.length ∧ xpdsFile.take 4 ≠ [83, 68, 80, 88] ∧
    load_image (.readable xpdsFile) = ⟨none, none, 4, []⟩ :=
  ⟨by decide, by decide, claim_C3_amended_no_magic_check xpdsFile (by decide) (by decide)⟩

/-- Claim C4: on the spec's concrete scenario 2 file (valid header,
only 12 of the 16 pixel bytes), the claim says decoding fails with
PrematureEOF.  The compiled code does return no raster, but with the
error out-parameter unset, because it never reads pixel data; the
PrematureEOF path the claim describes sits in the commented-out body,
which on this file would indeed fail that way. -/
theorem claim_C4_truncated_pixels_no_error_live :
    load_image (.readable dpxScenario2) = ⟨none, none, 4, []⟩ ∧
    load_image_full dpxScenario2 = .error .prematureEOF := by decide

/-- Counterexample for claim C5: on the crafted header with width
0xFFFFFFFF the claim demands a DimensionsTooLarge or DimensionOverflow
failure, but the compiled load_image performs no dimension validation
and leaves the error out-parameter unset. -/
theorem claim_C5_counterexample :
    be32at wideDpxFile 772 = 4294967295 ∧
    (load_image (.readable wideDpxFile)).err = none ∧
    (load_image (.readable wideDpxFile)).err ≠ some DecodeError.dimensionsTooLarge ∧
    (load_image (.readable wideDpxFile)).err ≠ some DecodeError.dimensionOverflow := by decide

/-- Claim C5 as amended: the compiled code performs no dimension
validation because that code is commented out; for every readable
file with at least 4 bytes it returns NULL with no error set, consumes
only the 4 magic bytes, and reads no rows, so a width of 0xFFFFFFFF
never reaches any buffer-size computation - nothing is allocated. -/
theorem claim_C5_amended_no_validation (bytes : List Nat) (h4 : 4 ≤ bytes.length) :
    (load_image (.readable bytes)).err = none ∧
    (load_image (.readable bytes)).rowsRead = [] ∧
    (load_image (.readable bytes)).consumed = 4 := by
  have hli : load_image (.readable bytes) = ⟨none, none, 4, []⟩ := by
    simp [load_image, Nat.not_lt.mpr h4]
  rw [hli]
  exact ⟨rfl, rfl, rfl⟩

/-- Witness for the amended claim C5 at the crafted wide header. -/
theorem claim_C5_witness :
    4 ≤ wideDpxFile.length ∧
    ((load_image (.readable wideDpxFile)).err = none ∧
      (load_image (.readable wideDpxFile)).rowsRead = [] ∧
      (load_image (.readable wideDpxFile)).consumed = 4) :=
  ⟨by decide, claim_C5_amended_no_validation wideDpxFile (by decide)⟩

/-- Claim C6: on the spec's concrete scenario 1 file the claim says
decoding yields the 2-by-1 raster with native pixels
(256,512,768,65535) and (1024,1280,1536,65535).  The compiled code
returns NULL with no error; the commented-out body would produce
exactly the claimed raster. -/
theorem claim_C6_scenario1_live_null_intended_pixels :
    load_image (.readable dpxScenario1) = ⟨none, none, 4, []⟩ ∧
    load_image_full dpxScenario1 =
      .ok ⟨2, 1, [[256, 512, 768, 65535, 1024, 1280, 1536, 65535]]⟩ := by decide

/-- Claim C7: the byte-order round-trip.  For every well-formed native
16-bit RGBA raster, the compiled load_image applied to its big-endian
encoding returns NULL rather than the raster; the commented-out body
would reproduce the raster exactly, sample for sample. -/
theorem claim_C7_roundtrip_live_null_intended_identity (r : Raster)
    (hwf : WellFormedRaster r) :
    (load_image (.readable (encodeDpx r))).image = none ∧
    load_image_full (encodeDpx r) = .ok r :=
  ⟨load_image_no_image _, encodeDpx_roundTrip r hwf⟩

/-- Witness for claim C7 at a concrete one-pixel raster. -/
theorem claim_C7_witness :
    WellFormedRaster roundTripRaster ∧
    ((load_image (.readable (encodeDpx roundTripRaster))).image = none ∧
      load_image_full (encodeDpx roundTripRaster) = .ok roundTripRaster) :=
  ⟨by decide, claim_C7_roundtrip_live_null_intended_identity roundTripRaster (by decide)⟩

/-- Claim C8: for every file with fewer than 4 bytes the magic fread
fails, the code stores the Failed-to-read-Dpx-header error (the
header-read failure the spec calls TruncatedHeader) and returns NULL,
having consumed only the bytes available. -/
theorem claim_C8_short_file_header_error (bytes : List Nat) (h : bytes.length < 4) :
    load_image (.readable bytes) = ⟨none, some .failedToReadHeader, bytes.length, []⟩ := by
  simp [load_image, h]

/-- Witness for claim C8 at a 2-byte file. -/
theorem claim_C8_witness :
    ([83, 68] : List Nat).length < 4 ∧
    load_image (.readable [83, 68]) = ⟨none, some .failedToReadHeader, 2, []⟩ :=
  ⟨by decide, claim_C8_short_file_header_error [83, 68] (by decide)⟩

/-- Claim C9: the claim says rows are processed in strictly increasing
order, each row read exactly once, with Done and Failed the only
terminal states.  The compiled code never enters the row loop: on the
scenario 1 file, whose header declares height 1, no row fread ever
happens (rowsRead stays empty for every input), so row 0 is read zero
times rather than exactly once. -/
theorem claim_C9_no_rows_processed :
    (∀ f, (load_image f).rowsRead = []) ∧
    be32at dpxScenario1 776 = 1 ∧
    (load_image (.readable dpxScenario1)).image = none := by
  refine ⟨?_, by decide, by decide⟩
  intro f
  cases f with
  | unreadable => rfl
  | readable bytes => by_cases h4 : bytes.length < 4 <;> simp [load_image, h4]

/-- Claim C10: whenever the 4-byte magic read succeeds, load_image
returns NULL with the GError out-parameter left unset, so dpx_load
returns a GIMP_PDB_EXECUTION_ERROR result carrying a NULL error
object. -/
theorem claim_C10_magic_ok_null_image_no_error (bytes : List Nat) (h4 : 4 ≤ bytes.length) :
    (load_image (.readable bytes)).image = none ∧
    (load_image (.readable bytes)).err = none ∧
    dpx_load (.readable bytes) = ⟨.executionError, none, none⟩ := by
  have hli : load_image (.readable bytes) = ⟨none, none, 4, []⟩ := by
    simp [load_image, Nat.not_lt.mpr h4]
  refine ⟨by rw [hli], by rw [hli], ?_⟩
  simp [dpx_load, hli]

/-- Witness for claim C10 at the 4-byte file holding only the magic. -/
theorem claim_C10_witness :
    4 ≤ ([83, 68, 80, 88] : List Nat).length ∧
    ((load_image (.readable [83, 68, 80, 88])).image = none ∧
      (load_image (.readable [83, 68, 80, 88])).err = none ∧
      dpx_load (.readable [83, 68, 80, 88]) = ⟨.executionError, none, none⟩) :=
  ⟨by decide, claim_C10_magic_ok_null_image_no_error [83, 68, 80, 88] (by decide)⟩

end Dpx
